import Mathlib

/-
  Verification of the GPU Expected-Improvement evaluation subsystem
  (gpp_expected_improvement_gpu.hpp) of the MOE optimal_learning library.

  The repository provides the header (declarations, inline member bodies and
  macros); the out-of-line member bodies live in a translation unit that is not
  part of the given sources.  Definitions below are translated from the header
  where a body is present there; the remaining operations are modelled from the
  specification and marked as such in their doc comments.  All floating-point
  values are embedded as rationals so that every definition is executable.
-/

set_option maxRecDepth 4000

/-- Modelled from the spec: `GetVectorSize`'s out-of-line body is missing from
the sources.  §4.2 step 3 of the spec fixes the computation of the effective
Monte-Carlo draw count: the requested count is rounded up to the next multiple
of the device grid size `num_threads * num_blocks`. -/
def effectiveDraws (num_mc_itr num_threads num_blocks : Nat) : Nat :=
  num_threads * num_blocks *
    ((num_mc_itr + num_threads * num_blocks - 1) / (num_threads * num_blocks))

/-- Modelled from the spec: `CudaExpectedImprovementState::GetVectorSize`'s
body is missing from the sources.  Per §4.2 step 3 it returns
`num_points * effective_draws`, the total count of normal draws needed. -/
def GetVectorSize (num_mc_itr num_threads num_blocks num_points : Nat) : Nat :=
  num_points * effectiveDraws num_mc_itr num_threads num_blocks

/-- Modelled from the spec: `CudaExpectedImprovementState::BuildUnionOfPoints`'s
body is missing from the sources.  Per the header doc and §4.3 it copies the
`num_to_sample * dim` entries of `points_to_sample` followed by the
`num_being_sampled * dim` entries of `points_being_sampled` into a freshly
built sequence. -/
def BuildUnionOfPoints (points_to_sample points_being_sampled : List ℚ)
    (num_to_sample num_being_sampled dim : Nat) : List ℚ :=
  points_to_sample.take (num_to_sample * dim) ++
    points_being_sampled.take (num_being_sampled * dim)

lemma effectiveDraws_ge (m g : Nat) (hg : 0 < g) : m ≤ g * ((m + g - 1) / g) := by
  have h1 : g * ((m + g - 1) / g) + (m + g - 1) % g = m + g - 1 :=
    Nat.div_add_mod (m + g - 1) g
  have h2 : (m + g - 1) % g < g := Nat.mod_lt _ hg
  omega

lemma effectiveDraws_min (m g k : Nat) (hg : 0 < g) (hk : m ≤ g * k) :
    g * ((m + g - 1) / g) ≤ g * k := by
  have hq : (m + g - 1) / g ≤ k := by
    have h3 : (m + g - 1) / g < k + 1 := by
      rw [Nat.div_lt_iff_lt_mul hg]
      have h4 : (k + 1) * g = g * k + g := by ring
      omega
    omega
  exact Nat.mul_le_mul_left g hq

/-- C1: for positive `num_mc_itr, num_threads, num_blocks, num_points`,
`GetVectorSize` returns `num_points * effective_draws`, where `effective_draws`
is the smallest multiple of `num_threads * num_blocks` that is at least
`num_mc_itr`; consequently the result is divisible by
`num_threads * num_blocks * num_points`. -/
theorem GetVectorSize_effective_draws (m t b p : Nat)
    (hm : 0 < m) (ht : 0 < t) (hb : 0 < b) (hp : 0 < p) :
    GetVectorSize m t b p = p * effectiveDraws m t b ∧
    (t * b) ∣ effectiveDraws m t b ∧
    m ≤ effectiveDraws m t b ∧
    (∀ e, (t * b) ∣ e → m ≤ e → effectiveDraws m t b ≤ e) ∧
    (t * b * p) ∣ GetVectorSize m t b p := by
  have hg : 0 < t * b := Nat.mul_pos ht hb
  refine ⟨rfl, ⟨_, rfl⟩, effectiveDraws_ge m (t * b) hg, ?_, ?_⟩
  · intro e he hme
    obtain ⟨k, hk⟩ := he
    rw [hk] at hme ⊢
    exact effectiveDraws_min m (t * b) k hg hme
  · exact ⟨(m + t * b - 1) / (t * b), by unfold GetVectorSize effectiveDraws; ring⟩

theorem GetVectorSize_effective_draws_witness :
    GetVectorSize 5 2 3 4 = 4 * effectiveDraws 5 2 3 ∧
    (2 * 3) ∣ effectiveDraws 5 2 3 ∧
    5 ≤ effectiveDraws 5 2 3 ∧
    (∀ e, (2 * 3) ∣ e → 5 ≤ e → effectiveDraws 5 2 3 ≤ e) ∧
    (2 * 3 * 4) ∣ GetVectorSize 5 2 3 4 :=
  GetVectorSize_effective_draws 5 2 3 4 (by decide) (by decide) (by decide) (by decide)

/-- C2: for inputs of the advertised lengths, `BuildUnionOfPoints` returns a
sequence of length `(n_p + n_q) * dim` whose first `n_p * dim` entries equal
`points_to_sample` and whose remaining entries equal `points_being_sampled`. -/
theorem BuildUnionOfPoints_layout (p q : List ℚ) (n_p n_q dim : Nat)
    (hp : p.length = n_p * dim) (hq : q.length = n_q * dim) :
    (BuildUnionOfPoints p q n_p n_q dim).length = (n_p + n_q) * dim ∧
    (BuildUnionOfPoints p q n_p n_q dim).take (n_p * dim) = p ∧
    (BuildUnionOfPoints p q n_p n_q dim).drop (n_p * dim) = q := by
  have hpt : p.take (n_p * dim) = p := by rw [← hp, List.take_length]
  have hqt : q.take (n_q * dim) = q := by rw [← hq, List.take_length]
  unfold BuildUnionOfPoints
  rw [hpt, hqt]
  refine ⟨?_, ?_, ?_⟩
  · rw [List.length_append, hp, hq]; ring
  · rw [← hp, List.take_left]
  · rw [← hp, List.drop_left]

theorem BuildUnionOfPoints_layout_witness :
    (BuildUnionOfPoints [1, 2] [3] 2 1 1).length = (2 + 1) * 1 ∧
    (BuildUnionOfPoints [1, 2] [3] 2 1 1).take (2 * 1) = [1, 2] ∧
    (BuildUnionOfPoints [1, 2] [3] 2 1 1).drop (2 * 1) = [3] :=
  BuildUnionOfPoints_layout [1, 2] [3] 2 1 1 (by decide) (by decide)

/-- Modelled from the spec §6: the Gaussian Process collaborator is external to
this subsystem (gpp_math.hpp is not among the given sources).  It provides the
mean, the covariance Cholesky factor, and their gradients at a flattened query
point sequence. -/
structure GaussianProcess where
  Mean : List ℚ → List ℚ
  GradMean : List ℚ → Nat → List ℚ
  CovarianceCholesky : List ℚ → List ℚ
  GradCovarianceCholesky : List ℚ → Nat → List ℚ

/-- Modelled from the spec §3: the GP-internal evaluation sub-state
(`GaussianProcess::StateType`, external) records the query points and the
number of derivative slots it was last configured with. -/
structure GaussianProcessState where
  points : List ℚ
  num_derivatives : Nat
  deriving DecidableEq

/-- Evaluator fields from the header (dim_, num_mc_, best_so_far_,
gaussian_process_, plus the device id passed to the constructor). -/
structure CudaExpectedImprovementEvaluator where
  dim : Nat
  num_mc : Nat
  best_so_far : ℚ
  gaussian_process : GaussianProcess
  devID : Nat

/-- Modelled from the spec: the GPU grid constants (threads per block, blocks)
come from the external CUDA backend header gpp_cuda_math.hpp, which is not
among the given sources; their values are unspecified here. -/
def kEiThreadNo : Nat := 2

/-- Modelled from the spec: block count of the external CUDA backend grid. -/
def kEiBlockNo : Nat := 2

/-- State fields from the header (lines 277-327).  Device buffers
(CudaDevicePointer fields) are modelled by the contents of the device region
they point to; the borrowed UniformRandomGenerator is modelled by the state of
the generator it references. -/
structure CudaExpectedImprovementState where
  dim : Nat
  num_to_sample : Nat
  num_being_sampled : Nat
  num_derivatives : Nat
  num_union : Nat
  union_of_points : List ℚ
  points_to_sample_state : GaussianProcessState
  uniform_rng : Nat
  to_sample_mean : List ℚ
  grad_mu : List ℚ
  cholesky_to_sample_var : List ℚ
  grad_chol_decomp : List ℚ
  configure_for_test : Bool
  gpu_mu : List ℚ
  gpu_chol_var : List ℚ
  gpu_grad_mu : List ℚ
  gpu_grad_chol_var : List ℚ
  gpu_ei_storage : List ℚ
  gpu_grad_ei_storage : List ℚ
  gpu_random_number_ei : List ℚ
  gpu_random_number_grad_ei : List ℚ
  random_number_ei : List ℚ
  random_number_grad_ei : List ℚ
  deriving DecidableEq

/-- Modelled from the spec §3/§4.3: recompute every GP-derived host temporary
at the current union-of-points and re-upload the device copies (the member
bodies doing this are missing from the sources). -/
def recomputeDerived (ei_evaluator : CudaExpectedImprovementEvaluator)
    (s : CudaExpectedImprovementState) : CudaExpectedImprovementState :=
  { s with
    points_to_sample_state := ⟨s.union_of_points, s.num_derivatives⟩
    to_sample_mean := ei_evaluator.gaussian_process.Mean s.union_of_points
    grad_mu := ei_evaluator.gaussian_process.GradMean s.union_of_points s.num_derivatives
    cholesky_to_sample_var := ei_evaluator.gaussian_process.CovarianceCholesky s.union_of_points
    grad_chol_decomp := ei_evaluator.gaussian_process.GradCovarianceCholesky s.union_of_points s.num_derivatives
    gpu_mu := ei_evaluator.gaussian_process.Mean s.union_of_points
    gpu_chol_var := ei_evaluator.gaussian_process.CovarianceCholesky s.union_of_points
    gpu_grad_mu := ei_evaluator.gaussian_process.GradMean s.union_of_points s.num_derivatives
    gpu_grad_chol_var := ei_evaluator.gaussian_process.GradCovarianceCholesky s.union_of_points s.num_derivatives }

/-- Modelled from the spec §4.3: the test-configuration constructor
(header lines 196-199) additionally accepts externally supplied random draws
for deterministic testing; its body is missing from the sources. -/
def CudaExpectedImprovementState.constructForTest
    (ei_evaluator : CudaExpectedImprovementEvaluator)
    (points_to_sample points_being_sampled : List ℚ)
    (num_to_sample_in num_being_sampled_in : Nat)
    (configure_for_gradients : Bool) (uniform_rng_in : Nat)
    (configure_for_test : Bool)
    (random_number_ei_in random_number_grad_ei_in : List ℚ) :
    CudaExpectedImprovementState :=
  recomputeDerived ei_evaluator
  { dim := ei_evaluator.dim
    num_to_sample := num_to_sample_in
    num_being_sampled := num_being_sampled_in
    num_derivatives := if configure_for_gradients then num_to_sample_in else 0
    num_union := num_to_sample_in + num_being_sampled_in
    union_of_points := BuildUnionOfPoints points_to_sample points_being_sampled
      num_to_sample_in num_being_sampled_in ei_evaluator.dim
    points_to_sample_state := ⟨[], 0⟩
    uniform_rng := uniform_rng_in
    to_sample_mean := []
    grad_mu := []
    cholesky_to_sample_var := []
    grad_chol_decomp := []
    configure_for_test := configure_for_test
    gpu_mu := []
    gpu_chol_var := []
    gpu_grad_mu := []
    gpu_grad_chol_var := []
    gpu_ei_storage := List.replicate (kEiThreadNo * kEiBlockNo) 0
    gpu_grad_ei_storage :=
      List.replicate (kEiThreadNo * kEiBlockNo * ei_evaluator.dim * num_to_sample_in) 0
    gpu_random_number_ei := if configure_for_test then random_number_ei_in else []
    gpu_random_number_grad_ei := if configure_for_test then random_number_grad_ei_in else []
    random_number_ei := if configure_for_test then random_number_ei_in else []
    random_number_grad_ei := if configure_for_test then random_number_grad_ei_in else [] }

/-- Modelled from the spec §4.3: the primary constructor (header lines
190-193); on-device random generation, no externally supplied draws. -/
def CudaExpectedImprovementState.construct
    (ei_evaluator : CudaExpectedImprovementEvaluator)
    (points_to_sample points_being_sampled : List ℚ)
    (num_to_sample_in num_being_sampled_in : Nat)
    (configure_for_gradients : Bool) (uniform_rng_in : Nat) :
    CudaExpectedImprovementState :=
  CudaExpectedImprovementState.constructForTest ei_evaluator points_to_sample
    points_being_sampled num_to_sample_in num_being_sampled_in
    configure_for_gradients uniform_rng_in false [] []

/-- Translated from the header (lines 248-250): copy the first
`num_to_sample * dim` entries of `union_of_points` into caller storage. -/
def GetCurrentPoint (s : CudaExpectedImprovementState) : List ℚ :=
  s.union_of_points.take (s.num_to_sample * s.dim)

/-- Overwrite the first `k` entries of `dst` with the first `k` entries of
`src`, keeping the rest of `dst`. -/
def writeFirstBlock (dst src : List ℚ) (k : Nat) : List ℚ :=
  src.take k ++ dst.drop k

/-- Modelled from the spec §4.3: `UpdateCurrentPoint` (header line 260, body
missing from the sources) overwrites the mutable first block of
`union_of_points` and re-derives all dependent host/device quantities. -/
def UpdateCurrentPoint (ei_evaluator : CudaExpectedImprovementEvaluator)
    (s : CudaExpectedImprovementState) (points_to_sample : List ℚ) :
    CudaExpectedImprovementState :=
  recomputeDerived ei_evaluator
    { s with union_of_points :=
        writeFirstBlock s.union_of_points points_to_sample (s.num_to_sample * s.dim) }

/-- Modelled from the spec §4.3: `SetupState` (header line 275, body missing
from the sources) configures the state with new `points_to_sample` and fully
resynchronizes the GP-derived quantities and device uploads. -/
def SetupState (ei_evaluator : CudaExpectedImprovementEvaluator)
    (s : CudaExpectedImprovementState) (points_to_sample : List ℚ) :
    CudaExpectedImprovementState :=
  recomputeDerived ei_evaluator
    { s with union_of_points :=
        writeFirstBlock s.union_of_points points_to_sample (s.num_to_sample * s.dim) }

lemma writeFirstBlock_drop (u pts : List ℚ) (k : Nat) (h : pts.length = k) :
    (writeFirstBlock u pts k).drop k = u.drop k := by
  have hlen : (pts.take k).length = k := by rw [List.length_take, h, Nat.min_self]
  unfold writeFirstBlock
  exact List.drop_left' hlen

lemma writeFirstBlock_idem (u pts : List ℚ) (k : Nat) (h : pts.length = k) :
    writeFirstBlock (writeFirstBlock u pts k) pts k = writeFirstBlock u pts k := by
  have hlen : (pts.take k).length = k := by rw [List.length_take, h, Nat.min_self]
  show pts.take k ++ (pts.take k ++ u.drop k).drop k = writeFirstBlock u pts k
  rw [List.drop_left' hlen]
  rfl

/-- Concrete Gaussian Process used to instantiate witnesses. -/
def testGP : GaussianProcess :=
  ⟨fun ps => ps.map (fun _ => 0), fun _ _ => [], fun ps => ps.map (fun _ => 1),
    fun _ _ => []⟩

/-- Concrete evaluator used to instantiate witnesses. -/
def testEvaluator : CudaExpectedImprovementEvaluator := ⟨1, 4, 0, testGP, 0⟩

/-- Concrete state used to instantiate witnesses. -/
def testState : CudaExpectedImprovementState :=
  CudaExpectedImprovementState.construct testEvaluator [5, 6] [7] 2 1 false 0

/-- C4: after `UpdateCurrentPoint` with a well-sized point array,
`GetCurrentPoint` returns exactly that array; `GetCurrentPoint` itself is the
pure function copying the first `num_to_sample * dim` entries of
`union_of_points`, with no effect on the state. -/
theorem GetCurrentPoint_after_UpdateCurrentPoint
    (ei_evaluator : CudaExpectedImprovementEvaluator)
    (s : CudaExpectedImprovementState) (new_pts : List ℚ)
    (h : new_pts.length = s.num_to_sample * s.dim) :
    GetCurrentPoint (UpdateCurrentPoint ei_evaluator s new_pts) = new_pts ∧
    GetCurrentPoint s = s.union_of_points.take (s.num_to_sample * s.dim) := by
  refine ⟨?_, rfl⟩
  show (writeFirstBlock s.union_of_points new_pts
      (s.num_to_sample * s.dim)).take (s.num_to_sample * s.dim) = new_pts
  have hlen : (new_pts.take (s.num_to_sample * s.dim)).length =
      s.num_to_sample * s.dim := by
    rw [List.length_take, h, Nat.min_self]
  unfold writeFirstBlock
  rw [List.take_left' hlen, ← h, List.take_length]

theorem GetCurrentPoint_after_UpdateCurrentPoint_witness :
    GetCurrentPoint (UpdateCurrentPoint testEvaluator testState [8, 9]) = [8, 9] :=
  (GetCurrentPoint_after_UpdateCurrentPoint testEvaluator testState [8, 9]
    (by decide)).1

/-- C5: `UpdateCurrentPoint` is equivalent to writing the new points into the
mutable first block of `union_of_points` and then calling `SetupState` with
those points, and it leaves the `points_being_sampled` suffix of
`union_of_points` unchanged. -/
theorem UpdateCurrentPoint_eq_SetupState
    (ei_evaluator : CudaExpectedImprovementEvaluator)
    (s : CudaExpectedImprovementState) (pts : List ℚ)
    (h : pts.length = s.num_to_sample * s.dim) :
    UpdateCurrentPoint ei_evaluator s pts =
      SetupState ei_evaluator
        { s with union_of_points :=
            writeFirstBlock s.union_of_points pts (s.num_to_sample * s.dim) } pts ∧
    (UpdateCurrentPoint ei_evaluator s pts).union_of_points.drop
        (s.num_to_sample * s.dim) =
      s.union_of_points.drop (s.num_to_sample * s.dim) := by
  constructor
  · show recomputeDerived ei_evaluator
        { s with union_of_points :=
            writeFirstBlock s.union_of_points pts (s.num_to_sample * s.dim) } =
      recomputeDerived ei_evaluator
        { s with union_of_points :=
            writeFirstBlock (writeFirstBlock s.union_of_points pts
              (s.num_to_sample * s.dim)) pts (s.num_to_sample * s.dim) }
    rw [writeFirstBlock_idem s.union_of_points pts (s.num_to_sample * s.dim) h]
  · show (writeFirstBlock s.union_of_points pts
        (s.num_to_sample * s.dim)).drop (s.num_to_sample * s.dim) =
      s.union_of_points.drop (s.num_to_sample * s.dim)
    exact writeFirstBlock_drop s.union_of_points pts (s.num_to_sample * s.dim) h

theorem UpdateCurrentPoint_eq_SetupState_witness :
    UpdateCurrentPoint testEvaluator testState [8, 9] =
      SetupState testEvaluator
        { testState with union_of_points :=
            (writeFirstBlock testState.union_of_points [8, 9]
              (testState.num_to_sample * testState.dim)) } [8, 9] :=
  (UpdateCurrentPoint_eq_SetupState testEvaluator testState [8, 9] (by decide)).1

/-- Minimum entry of a list of rationals (0 for the empty list). -/
def listMin : List ℚ → ℚ
  | [] => 0
  | a :: as => as.foldl min a

/-- Row `i` of the flattened lower-triangular Cholesky factor applied to a
draw vector. -/
def applyCholRow (L : List ℚ) (n i : Nat) (z : List ℚ) : ℚ :=
  ((List.range n).map (fun j => L.getD (i * n + j) 0 * z.getD j 0)).sum

/-- Joint GP posterior sample at the union points: mean plus Cholesky factor
times the standard-normal draw vector (spec §4.2 step 4). -/
def gpSample (mu L : List ℚ) (n : Nat) (z : List ℚ) : List ℚ :=
  (List.range n).map (fun i => mu.getD i 0 + applyCholRow L n i z)

/-- Per-draw improvement term `max(0, best_so_far - min_i(sample_i))`
(spec §4.2 step 4). -/
def improvementTerm (best : ℚ) (sample : List ℚ) : ℚ :=
  max 0 (best - listMin sample)

/-- Modelled from the spec §6: the pseudo-random generator and the normal
transform are external collaborators (gpp_random.hpp is not among the given
sources); the i-th draw of a seeded generator is a fixed deterministic
function of the seed. -/
def rngNormalDraw (seed i : Nat) : ℚ :=
  ((((seed + i) * 1103515245 + 12345) % 2001 : Nat) : ℚ) / 1000 - 1

/-- Flat stream of `count` draws from a seeded generator. -/
def rngStream (seed count : Nat) : List ℚ :=
  (List.range count).map (fun i => rngNormalDraw seed i)

/-- The i-th draw vector of dimension `n` taken from a flat stream. -/
def drawVector (stream : List ℚ) (n i : Nat) : List ℚ :=
  (List.range n).map (fun j => stream.getD (i * n + j) 0)

/-- Modelled from the spec §4.2: `ComputeExpectedImprovement` (header line
123, body missing from the sources).  Computes mean and Cholesky factor via
the GP, uploads them, runs `effective_draws` Monte-Carlo samples (externally
supplied draws in test configuration, generator-derived draws otherwise),
averages the improvement terms, and advances the generator by the number of
draws consumed. -/
def ComputeExpectedImprovement (ei_evaluator : CudaExpectedImprovementEvaluator)
    (ei_state : CudaExpectedImprovementState) : ℚ × CudaExpectedImprovementState :=
  let n := ei_state.num_union
  let num_draws := effectiveDraws ei_evaluator.num_mc kEiThreadNo kEiBlockNo
  let mu := ei_evaluator.gaussian_process.Mean ei_state.union_of_points
  let L := ei_evaluator.gaussian_process.CovarianceCholesky ei_state.union_of_points
  let stream := if ei_state.configure_for_test then ei_state.random_number_ei
    else rngStream ei_state.uniform_rng (num_draws * n)
  let terms := (List.range num_draws).map
    (fun i => improvementTerm ei_evaluator.best_so_far
      (gpSample mu L n (drawVector stream n i)))
  (terms.sum / (num_draws : ℚ),
   { ei_state with
      to_sample_mean := mu
      cholesky_to_sample_var := L
      gpu_mu := mu
      gpu_chol_var := L
      gpu_ei_storage := terms
      uniform_rng := if ei_state.configure_for_test then ei_state.uniform_rng
        else ei_state.uniform_rng + num_draws * n })

/-- Index of the first minimum entry of a list. -/
def argminIndex (l : List ℚ) : Nat :=
  l.indexOf (listMin l)

/-- Modelled from the spec §4.2 step 4 (gradient path): pathwise derivative of
one draw's improvement term w.r.t. the flattened candidate coordinates,
chained through the uploaded mean/Cholesky gradients; zero when the draw
yields no improvement or the minimizing component is not a derivative slot. -/
def gradImprovementTerm (best : ℚ) (grad_mu grad_chol mu L : List ℚ)
    (n num_derivatives dim : Nat) (z : List ℚ) : List ℚ :=
  let y := gpSample mu L n z
  let i0 := argminIndex y
  if 0 < best - listMin y ∧ i0 < num_derivatives then
    (List.range (dim * num_derivatives)).map (fun jd =>
      -(grad_mu.getD (jd * n + i0) 0 +
        ((List.range n).map
          (fun k => grad_chol.getD (jd * n * n + i0 * n + k) 0 * z.getD k 0)).sum))
  else List.replicate (dim * num_derivatives) 0

/-- Modelled from the spec §4.2: `ComputeGradExpectedImprovement` (header line
134, body missing from the sources).  Shares the setup of the value path and
accumulates the pathwise derivative of the improvement term across the
effective draws. -/
def ComputeGradExpectedImprovement (ei_evaluator : CudaExpectedImprovementEvaluator)
    (ei_state : CudaExpectedImprovementState) : List ℚ × CudaExpectedImprovementState :=
  let n := ei_state.num_union
  let nd := ei_state.num_derivatives
  let num_draws := effectiveDraws ei_evaluator.num_mc kEiThreadNo kEiBlockNo
  let mu := ei_evaluator.gaussian_process.Mean ei_state.union_of_points
  let L := ei_evaluator.gaussian_process.CovarianceCholesky ei_state.union_of_points
  let gmu := ei_evaluator.gaussian_process.GradMean ei_state.union_of_points nd
  let gch := ei_evaluator.gaussian_process.GradCovarianceCholesky ei_state.union_of_points nd
  let stream := if ei_state.configure_for_test then ei_state.random_number_grad_ei
    else rngStream ei_state.uniform_rng (num_draws * n)
  let per_draw := (List.range num_draws).map
    (fun i => gradImprovementTerm ei_evaluator.best_so_far gmu gch mu L n nd
      ei_state.dim (drawVector stream n i))
  let total := per_draw.foldl
    (fun acc v => (List.range (ei_state.dim * nd)).map
      (fun j => acc.getD j 0 + v.getD j 0))
    (List.replicate (ei_state.dim * nd) 0)
  (total.map (fun x => x / (num_draws : ℚ)),
   { ei_state with
      to_sample_mean := mu
      cholesky_to_sample_var := L
      grad_mu := gmu
      grad_chol_decomp := gch
      gpu_mu := mu
      gpu_chol_var := L
      gpu_grad_mu := gmu
      gpu_grad_chol_var := gch
      gpu_grad_ei_storage := total
      uniform_rng := if ei_state.configure_for_test then ei_state.uniform_rng
        else ei_state.uniform_rng + num_draws * n })

/-- Translated from the header (lines 102-104): `ComputeObjectiveFunction`
returns `ComputeExpectedImprovement(ei_state)`. -/
def ComputeObjectiveFunction (ei_evaluator : CudaExpectedImprovementEvaluator)
    (ei_state : CudaExpectedImprovementState) : ℚ × CudaExpectedImprovementState :=
  ComputeExpectedImprovement ei_evaluator ei_state

/-- Translated from the header (lines 109-111): `ComputeGradObjectiveFunction`
calls `ComputeGradExpectedImprovement(ei_state, grad_ei)`. -/
def ComputeGradObjectiveFunction (ei_evaluator : CudaExpectedImprovementEvaluator)
    (ei_state : CudaExpectedImprovementState) : List ℚ × CudaExpectedImprovementState :=
  ComputeGradExpectedImprovement ei_evaluator ei_state

/-- C10: the two ObjectiveFunction entry points are pure delegation wrappers:
`ComputeObjectiveFunction` returns exactly `ComputeExpectedImprovement` and
`ComputeGradObjectiveFunction` has exactly the effect of
`ComputeGradExpectedImprovement`. -/
theorem ObjectiveFunction_delegates
    (ei_evaluator : CudaExpectedImprovementEvaluator)
    (ei_state : CudaExpectedImprovementState) :
    ComputeObjectiveFunction ei_evaluator ei_state =
      ComputeExpectedImprovement ei_evaluator ei_state ∧
    ComputeGradObjectiveFunction ei_evaluator ei_state =
      ComputeGradExpectedImprovement ei_evaluator ei_state :=
  ⟨rfl, rfl⟩

/-- C3: the EI estimate is a deterministic function of the evaluator
configuration and of the state's points, sizes, generator seed and
test-configuration draws; two states agreeing on these (in particular two
states built with identical parameters and identically seeded generators,
with no intervening compute calls) receive exactly equal EI estimates. -/
theorem ComputeExpectedImprovement_deterministic
    (ei_evaluator : CudaExpectedImprovementEvaluator)
    (s1 s2 : CudaExpectedImprovementState)
    (hunion : s1.union_of_points = s2.union_of_points)
    (hn : s1.num_union = s2.num_union)
    (hrng : s1.uniform_rng = s2.uniform_rng)
    (htest : s1.configure_for_test = s2.configure_for_test)
    (hdraws : s1.random_number_ei = s2.random_number_ei) :
    (ComputeExpectedImprovement ei_evaluator s1).1 =
      (ComputeExpectedImprovement ei_evaluator s2).1 := by
  unfold ComputeExpectedImprovement
  simp only [hunion, hn, hrng, htest, hdraws]

/-- State identical to `testState` except that it was constructed with
gradients configured; used to show the EI estimate ignores that flag. -/
def testStateGrad : CudaExpectedImprovementState :=
  CudaExpectedImprovementState.construct testEvaluator [5, 6] [7] 2 1 true 0

theorem ComputeExpectedImprovement_deterministic_witness :
    (ComputeExpectedImprovement testEvaluator testState).1 =
      (ComputeExpectedImprovement testEvaluator testStateGrad).1 :=
  ComputeExpectedImprovement_deterministic testEvaluator testState testStateGrad
    rfl rfl rfl rfl rfl

lemma improvementTerm_mono (b1 b2 : ℚ) (y : List ℚ) (h : b1 ≤ b2) :
    improvementTerm b1 y ≤ improvementTerm b2 y := by
  unfold improvementTerm
  exact max_le_max le_rfl (by linarith)

/-- C6: with the GP, the points and the random draws fixed, the EI estimate is
monotonically non-decreasing in the evaluator's `best_so_far` parameter. -/
theorem ComputeExpectedImprovement_monotone_best
    (ev1 ev2 : CudaExpectedImprovementEvaluator) (s : CudaExpectedImprovementState)
    (hdim : ev1.dim = ev2.dim) (hmc : ev1.num_mc = ev2.num_mc)
    (hgp : ev1.gaussian_process = ev2.gaussian_process)
    (hdev : ev1.devID = ev2.devID)
    (hbest : ev1.best_so_far ≤ ev2.best_so_far) :
    (ComputeExpectedImprovement ev1 s).1 ≤ (ComputeExpectedImprovement ev2 s).1 := by
  unfold ComputeExpectedImprovement
  simp only [hmc, hgp]
  rw [div_eq_mul_inv, div_eq_mul_inv]
  apply mul_le_mul_of_nonneg_right _ (inv_nonneg.mpr (Nat.cast_nonneg _))
  apply List.sum_le_sum
  intro i hi
  exact improvementTerm_mono ev1.best_so_far ev2.best_so_far _ hbest

/-- Evaluator identical to `testEvaluator` except for a larger
`best_so_far`; used to instantiate the C6 monotonicity witness. -/
def testEvaluatorHigherBest : CudaExpectedImprovementEvaluator := ⟨1, 4, 1, testGP, 0⟩

theorem ComputeExpectedImprovement_monotone_best_witness :
    (ComputeExpectedImprovement testEvaluator testState).1 ≤
      (ComputeExpectedImprovement testEvaluatorHigherBest testState).1 :=
  ComputeExpectedImprovement_monotone_best testEvaluator testEvaluatorHigherBest
    testState rfl rfl rfl rfl (by decide)

/-- Tuple of the five size fields declared `const` in the header
(lines 277-287). -/
def sizeFields (s : CudaExpectedImprovementState) : Nat × Nat × Nat × Nat × Nat :=
  (s.dim, s.num_to_sample, s.num_being_sampled, s.num_derivatives, s.num_union)

/-- C8: both constructors establish `num_union = num_to_sample +
num_being_sampled` and `num_derivatives = (configure_for_gradients ?
num_to_sample : 0)`, and no state operation (`UpdateCurrentPoint`,
`SetupState`, value or gradient computation; `GetCurrentPoint` does not touch
the state at all) changes any of the five size fields after construction. -/
theorem sizeFields_invariant :
    (∀ ev pts pbs nts nbs cfg rng tst dr1 dr2,
      sizeFields (CudaExpectedImprovementState.constructForTest ev pts pbs nts
          nbs cfg rng tst dr1 dr2) =
        (ev.dim, nts, nbs, if cfg then nts else 0, nts + nbs)) ∧
    (∀ ev pts pbs nts nbs cfg rng,
      sizeFields (CudaExpectedImprovementState.construct ev pts pbs nts nbs cfg rng) =
        (ev.dim, nts, nbs, if cfg then nts else 0, nts + nbs)) ∧
    (∀ ev s pts, sizeFields (UpdateCurrentPoint ev s pts) = sizeFields s) ∧
    (∀ ev s pts, sizeFields (SetupState ev s pts) = sizeFields s) ∧
    (∀ ev s, sizeFields (ComputeExpectedImprovement ev s).2 = sizeFields s) ∧
    (∀ ev s, sizeFields (ComputeGradExpectedImprovement ev s).2 = sizeFields s) :=
  ⟨fun _ _ _ _ _ _ _ _ _ _ => rfl, fun _ _ _ _ _ _ _ => rfl, fun _ _ _ => rfl,
   fun _ _ _ => rfl, fun _ _ => rfl, fun _ _ => rfl⟩

/-- Modelled from the external CUDA runtime (not among the given sources):
the success status code compared against in OL_CUDA_ERROR_THROW. -/
def cudaSuccess : Nat := 0

/-- Modelled from the external backend header gpp_cuda_math.hpp (not among
the given sources): the status struct returned by every backend call,
carrying the status code and the backend's diagnostic message. -/
structure CudaError where
  err : Nat
  message : String
  deriving DecidableEq

/-- Translated from the header (lines 55-68): exception wrapping the
CudaError returned by a CUDA API function. -/
structure OptimalLearningCudaException where
  error : CudaError
  deriving DecidableEq

/-- Translated from the header (line 26): the OL_CUDA_ERROR_THROW macro
checks the CudaError returned by a CUDA call and throws
OptimalLearningCudaException exactly when the status differs from
cudaSuccess. -/
def OL_CUDA_ERROR_THROW (x : CudaError) :
    Except OptimalLearningCudaException Unit :=
  if x.err ≠ cudaSuccess then Except.error ⟨x⟩ else Except.ok ()

/-- Modelled from the spec §4.2/§7: a compute call is a sequence of GPU
backend calls whose statuses are each checked with OL_CUDA_ERROR_THROW; a
raised exception propagates, skipping every later call. -/
def runCudaCalls : List CudaError → Except OptimalLearningCudaException Unit
  | [] => Except.ok ()
  | e :: es => (OL_CUDA_ERROR_THROW e).bind (fun _ => runCudaCalls es)

lemma runCudaCalls_ok_iff (es : List CudaError) :
    runCudaCalls es = Except.ok () ↔ ∀ x ∈ es, x.err = cudaSuccess := by
  induction es with
  | nil => simp [runCudaCalls]
  | cons e es ih =>
    by_cases h : e.err = cudaSuccess
    · simp [runCudaCalls, OL_CUDA_ERROR_THROW, h, Except.bind, ih]
    · simp [runCudaCalls, OL_CUDA_ERROR_THROW, h, Except.bind]

lemma runCudaCalls_abort (ok_calls : List CudaError) (bad : CudaError)
    (later : List CudaError) (hok : ∀ x ∈ ok_calls, x.err = cudaSuccess)
    (hbad : bad.err ≠ cudaSuccess) :
    runCudaCalls (ok_calls ++ bad :: later) = Except.error ⟨bad⟩ := by
  induction ok_calls with
  | nil => simp [runCudaCalls, OL_CUDA_ERROR_THROW, hbad, Except.bind]
  | cons e es ih =>
    have he : e.err = cudaSuccess := hok e (by simp)
    have hrec := ih (fun x hx => hok x (by simp [hx]))
    simp [runCudaCalls, OL_CUDA_ERROR_THROW, he, Except.bind, hrec]

/-- C7: OL_CUDA_ERROR_THROW raises an OptimalLearningCudaException carrying
the backend's diagnostic exactly when the checked status is not cudaSuccess;
in a checked sequence of backend calls, success of every call is equivalent
to normal completion, and the first non-success status aborts the computation
immediately with that status's exception, with no retry of the remaining
calls. -/
theorem cuda_error_check :
    (∀ x : CudaError, x.err ≠ cudaSuccess →
      OL_CUDA_ERROR_THROW x = Except.error ⟨x⟩) ∧
    (∀ x : CudaError, x.err = cudaSuccess →
      OL_CUDA_ERROR_THROW x = Except.ok ()) ∧
    (∀ statuses : List CudaError,
      runCudaCalls statuses = Except.ok () ↔
        ∀ x ∈ statuses, x.err = cudaSuccess) ∧
    (∀ (ok_calls : List CudaError) (bad : CudaError) (later : List CudaError),
      (∀ x ∈ ok_calls, x.err = cudaSuccess) → bad.err ≠ cudaSuccess →
      runCudaCalls (ok_calls ++ bad :: later) = Except.error ⟨bad⟩) := by
  refine ⟨?_, ?_, runCudaCalls_ok_iff, runCudaCalls_abort⟩
  · intro x hx
    simp [OL_CUDA_ERROR_THROW, hx]
  · intro x hx
    simp [OL_CUDA_ERROR_THROW, hx]

theorem cuda_error_check_witness :
    runCudaCalls [⟨0, "cudaMalloc"⟩, ⟨2, "cudaMemcpy failed"⟩, ⟨0, "kernel"⟩] =
      Except.error ⟨⟨2, "cudaMemcpy failed"⟩⟩ :=
  cuda_error_check.2.2.2 [⟨0, "cudaMalloc"⟩] ⟨2, "cudaMemcpy failed"⟩
    [⟨0, "kernel"⟩] (by decide) (by decide)

/-- Modelled from the spec §4.1: the device-memory allocator of the external
CUDA backend, tracked as a fresh-region counter together with the list of
live regions (region id, number of doubles). -/
structure DeviceHeap where
  next : Nat
  regions : List (Nat × Nat)
  deriving DecidableEq

/-- Fields of CudaDevicePointer from the header (lines 37-48): the device
location and the number of doubles allocated there. -/
structure CudaDevicePointer where
  ptr : Nat
  num_doubles : Nat
  deriving DecidableEq

/-- A device heap is well formed when every live region id is below the
fresh-region counter. -/
def DeviceHeap.WF (h : DeviceHeap) : Prop :=
  ∀ r ∈ h.regions, r.1 < h.next

instance (h : DeviceHeap) : Decidable h.WF :=
  inferInstanceAs (Decidable (∀ r ∈ h.regions, r.1 < h.next))

/-- Modelled from the spec §4.1: the CudaDevicePointer constructor (header
line 38, body missing from the sources) acquires a fresh device region sized
to hold `num_doubles_in` doubles. -/
def CudaDevicePointer.construct (num_doubles_in : Nat) (h : DeviceHeap) :
    CudaDevicePointer × DeviceHeap :=
  (⟨h.next, num_doubles_in⟩, ⟨h.next + 1, (h.next, num_doubles_in) :: h.regions⟩)

/-- Modelled from the spec §4.1: the CudaDevicePointer destructor (header
line 40, body missing from the sources) releases the owned region. -/
def CudaDevicePointer.destruct (p : CudaDevicePointer) (h : DeviceHeap) :
    DeviceHeap :=
  ⟨h.next, h.regions.eraseP (fun r => r.1 == p.ptr)⟩

/-- C9: on a well-formed device heap, constructing a CudaDevicePointer
allocates a region sized to the requested number of doubles that was not
previously live (exclusive ownership by the new buffer), destructing it
frees exactly that region, restoring the previous live-region set,
well-formedness is preserved, and a second construction owns a region
distinct from the first (buffers never share a region; the header deletes
the default constructor, copy constructor and copy assignment, so the model
offers construction and destruction as the only region transfers). -/
theorem CudaDevicePointer_ownership (n m : Nat) (h : DeviceHeap) (hwf : h.WF) :
    (CudaDevicePointer.construct n h).1.num_doubles = n ∧
    ((CudaDevicePointer.construct n h).1.ptr, n) ∈
      (CudaDevicePointer.construct n h).2.regions ∧
    (∀ k, ((CudaDevicePointer.construct n h).1.ptr, k) ∉ h.regions) ∧
    (CudaDevicePointer.destruct (CudaDevicePointer.construct n h).1
        (CudaDevicePointer.construct n h).2).regions = h.regions ∧
    (CudaDevicePointer.construct n h).2.WF ∧
    (CudaDevicePointer.construct m (CudaDevicePointer.construct n h).2).1.ptr ≠
      (CudaDevicePointer.construct n h).1.ptr := by
  refine ⟨rfl, by simp [CudaDevicePointer.construct], ?_, ?_, ?_, by
    simp [CudaDevicePointer.construct]⟩
  · intro k hk
    exact absurd (hwf _ hk) (lt_irrefl h.next)
  · show ((h.next, n) :: h.regions).eraseP (fun r => r.1 == h.next) = h.regions
    rw [List.eraseP_cons_of_pos]
    simp
  · intro r hr
    rcases List.mem_cons.mp hr with h1 | h2
    · rw [h1]
      exact Nat.lt_succ_self _
    · exact Nat.lt_succ_of_lt (hwf r h2)

theorem CudaDevicePointer_ownership_witness :
    (CudaDevicePointer.construct 3 ⟨0, []⟩).1.num_doubles = 3 ∧
    ((CudaDevicePointer.construct 3 ⟨0, []⟩).1.ptr, 3) ∈
      (CudaDevicePointer.construct 3 ⟨0, []⟩).2.regions ∧
    (∀ k, ((CudaDevicePointer.construct 3 ⟨0, []⟩).1.ptr, k) ∉
      DeviceHeap.regions ⟨0, []⟩) ∧
    (CudaDevicePointer.destruct (CudaDevicePointer.construct 3 ⟨0, []⟩).1
        (CudaDevicePointer.construct 3 ⟨0, []⟩).2).regions =
      DeviceHeap.regions ⟨0, []⟩ ∧
    (CudaDevicePointer.construct 3 ⟨0, []⟩).2.WF ∧
    (CudaDevicePointer.construct 5
        (CudaDevicePointer.construct 3 ⟨0, []⟩).2).1.ptr ≠
      (CudaDevicePointer.construct 3 ⟨0, []⟩).1.ptr :=
  CudaDevicePointer_ownership 3 5 ⟨0, []⟩ (by decide)
